import Mathlib

/-!
Verification of the message-dispatch core of the `rls` language server
(`src/server/mod.rs`), as a shallow embedding in Lean 4.

JSON values are embedded as an inductive type (numbers are modelled as
integers; no claim under consideration depends on non-integral numbers).
The external `jsonrpc_core::Id` type and its serde (untagged) deserializer,
the output sink and the transport are modelled at their exact boundary
behaviour as used by `src/server/mod.rs`.
-/

/-- A JSON value, as produced by `serde_json`. Numbers are modelled as
integers. -/
inductive Json where
  | null
  | bool (b : Bool)
  | num (n : Int)
  | str (s : String)
  | arr (elems : List Json)
  | obj (fields : List (String × Json))

/-- Key lookup in the field list of a JSON object (first match wins,
mirroring `serde_json::Map` access, whose keys are unique). -/
def lookupField (key : String) : List (String × Json) → Option Json
  | [] => none
  | (k, v) :: rest => if k = key then some v else lookupField key rest

/-- `serde_json::Value::get(key)`: `Some` field value on objects containing
the key, `None` on all other values. -/
def Json.get (j : Json) (key : String) : Option Json :=
  match j with
  | .obj fields => lookupField key fields
  | _ => none

/-- `jsonrpc_core::Id`: a JSON-RPC message id. -/
inductive RpcId where
  | null
  | num (n : Nat)
  | str (s : String)

/-- `u64::MAX + 1`; also the modulus of `usize` on the 64-bit targets the
server runs on. -/
def u64Size : Nat := 2 ^ 64

/-- The serde deserializer of `jsonrpc_core::Id` (an untagged enum with
variants `Null`, `Num(u64)`, `Str(String)`): JSON null, a non-negative
integer that fits in a `u64`, or any string deserialize; every other JSON
value is an error (`none`). -/
def idFromValue : Json → Option RpcId
  | .null => some .null
  | .num n => if 0 ≤ n ∧ n < (u64Size : Int) then some (.num n.toNat) else none
  | .str s => some (.str s)
  | _ => none

/-- The two `jsonrpc_core::Error` values produced by this module:
`Error::parse_error()` (code -32700) and `Error::invalid_request()`
(code -32600). -/
inductive JsonRpcError where
  | parseError
  | invalidRequest
deriving DecidableEq

/-- `RawMessage`: the validated envelope produced by `parse_message`. -/
structure RawMessage where
  method : String
  id : Option RpcId
  params : Json

/-- Outcome of `LsService::parse_message`. `panic` models a Rust panic
(the `.unwrap()` on the id deserialization); `error` models the
`Err(jsonrpc::Error)` return; `ok` the `Ok` return. -/
inductive ParseOutcome where
  | panic
  | error (e : JsonRpcError)
  | ok (msg : Option RawMessage)

/-- The id extraction step of `parse_message`:
`ls_command.get("id").map(|id| serde_json::from_value(id.to_owned()).unwrap())`.
`none` models the panic of `.unwrap()` when the id value does not
deserialize as a `jsonrpc_core::Id`. -/
def extract_id (cmd : Json) : Option (Option RpcId) :=
  match cmd.get "id" with
  | none => some none
  | some idv => (idFromValue idv).map some

/-- The params step of `parse_message` (`match ls_command.get("params")`):
an object or array is kept as-is, an absent or null `params` is normalized
to `Json.null`, and every other shape is `Err(invalid_request)`. -/
def params_step (i : Option RpcId) (m : String) : Option Json → ParseOutcome
  | some (Json.obj fs) => .ok (some ⟨m, i, Json.obj fs⟩)
  | some (Json.arr xs) => .ok (some ⟨m, i, Json.arr xs⟩)
  | none => .ok (some ⟨m, i, Json.null⟩)
  | some Json.null => .ok (some ⟨m, i, Json.null⟩)
  | some _ => .error .invalidRequest

/-- The method step of `parse_message` (lines after id extraction): a
missing `method` yields `Ok(None)` (the message is a response to one of
our own requests); a non-string method is `Err(invalid_request)`;
otherwise the params step runs on `ls_command.get("params")`. -/
def method_step (cmd : Json) (i : Option RpcId) : ParseOutcome :=
  match cmd.get "method" with
  | none => .ok none
  | some (Json.str m) => params_step i m (cmd.get "params")
  | some _ => .error .invalidRequest

/-- `LsService::parse_message`. The input is the received message string,
represented by its `serde_json` parse result: `none` when the text is not
valid JSON (e.g. the literal text `not json`), `some v` when it parses to
the JSON value `v`. Malformed JSON is `Err(parse_error)`; the id is
extracted (and may panic) before the method check; the method and params
steps follow. -/
def parse_message (msg : Option Json) : ParseOutcome :=
  match msg with
  | none => .error .parseError
  | some cmd =>
    match extract_id cmd with
    | none => .panic
    | some i => method_step cmd i

/-- One base-10 digit, as accepted by `usize::from_str_radix(_, 10)`. -/
def digitVal (c : Char) : Option Nat :=
  if '0' ≤ c ∧ c ≤ '9' then some (c.toNat - '0'.toNat) else none

/-- Accumulate base-10 digits; `none` on the first non-digit character. -/
def digitsToNat : List Char → Nat → Option Nat
  | [], acc => some acc
  | c :: cs, acc =>
    match digitVal c with
    | some d => digitsToNat cs (acc * 10 + d)
    | none => none

/-- `usize::from_str_radix(s, 10)` on a 64-bit target: an optional leading
`+`, then a non-empty run of base-10 digits whose value fits in a `usize`;
everything else (including a leading `-`, the empty string, and overflow)
is an error. -/
def from_str_radix_10 (s : String) : Option Nat :=
  let ds := match s.data with
            | '+' :: rest => rest
            | cs => cs
  match ds with
  | [] => none
  | _ :: _ =>
    match digitsToNat ds 0 with
    | some n => if n < u64Size then some n else none
    | none => none

/-- The numeric-id coercion of `RawMessage::parse_as_request`:
`Id::Num(n)` is taken as-is (`n as usize`, the identity on 64 bits),
`Id::Str(s)` goes through `usize::from_str_radix(s, 10).ok()`, and a
missing or null id yields `None`. -/
def parsed_numeric_id : Option RpcId → Option Nat
  | some (.num n) => some n
  | some (.str s) => from_str_radix_10 s
  | _ => none

/-- `LsState`: the public shared state of the language server. The single
field is the `shut_down: AtomicBool` lifecycle flag (atomicity is
irrelevant in the single-threaded loop semantics modelled here). -/
structure LsState where
  shut_down : Bool

/-- A message written to the output sink by the dispatch core: either
`out.success(id, result)` or `out.failure(id, error)`. -/
inductive OutputMsg where
  | success (id : Nat) (result : Json)
  | failure (id : RpcId) (e : JsonRpcError)

/-- The response value a `RequestAction::handle` returns on success.
`noResponse` is the `NoResponse` type (its `Response::send` impl does
nothing); `payload j` is any serializable response, whose blanket
`Response::send` impl calls `out.success(id, j)` once, with `j` its
serialization. -/
inductive ResponseVal where
  | noResponse
  | payload (result : Json)

/-- `Response::send(id, out)`: the output-sink writes made by sending a
response value keyed to `id`. -/
def respSend (id : Nat) : ResponseVal → List OutputMsg
  | .noResponse => []
  | .payload j => [.success id j]

/-- Result of a `NotificationAction::handle` call: `Ok(())`, `Err(())`, or
a call to `std::process::exit(code)` that never returns. -/
inductive NotifOutcome where
  | err
  | ok
  | exitProc (code : Nat)

/-- Result of a `RequestAction::handle` call: `Err(())`, `Ok(response)`,
or a Rust panic. -/
inductive ReqOutcome where
  | err
  | ok (resp : ResponseVal)
  | panic

/-- One entry of the dispatch table generated by the `match_action!`
macro: a method-name constant together with the composition of the
action's `Params` deserializer and its `handle` implementation. The
`parse` field returns `none` exactly when `Params::deserialize` fails
(the `parse_as_notification` / `parse_as_request` error); otherwise it
returns the handler, which maps the server state to the updated state,
the writes the handler itself performs on the output sink, and its
outcome. Request handlers additionally receive the parsed numeric id. -/
inductive Descriptor where
  | notif (method : String)
      (parse : Json → Option (LsState → LsState × List OutputMsg × NotifOutcome))
  | req (method : String)
      (parse : Json → Option (Nat → LsState → LsState × List OutputMsg × ReqOutcome))

/-- The `METHOD` constant of a dispatch-table entry. -/
def Descriptor.method : Descriptor → String
  | .notif m _ => m
  | .req m _ => m

/-- `Request::dispatch`: run the handler; on `Ok(result)` send the
response (`result.send(self.id, out)`) keyed to the request id; on
`Err` and on panic nothing more is written. The returned writes are the
handler's own writes plus those of the final send. -/
def request_dispatch
    (h : Nat → LsState → LsState × List OutputMsg × ReqOutcome)
    (i : Nat) (s : LsState) : LsState × List OutputMsg × ReqOutcome :=
  match h i s with
  | (s', w, .ok resp) => (s', w ++ respSend i resp, .ok resp)
  | (s', w, .err) => (s', w, .err)
  | (s', w, .panic) => (s', w, .panic)

/-- Outcome of `LsService::dispatch_message`, together with the state and
accumulated output-sink writes: `Ok(())`, `Err(e)` (from
`parse_as_notification?` / `parse_as_request?`), process exit (from the
exit handler), or a panic inside a handler. -/
inductive DispatchOutcome where
  | ok (s : LsState) (out : List OutputMsg)
  | error (e : JsonRpcError) (s : LsState) (out : List OutputMsg)
  | exited (code : Nat) (s : LsState) (out : List OutputMsg)
  | panicked (s : LsState) (out : List OutputMsg)

/-- `LsService::dispatch_message`, over its dispatch table: each entry is
checked in order against the message's method (the macro emits a sequence
of independent `if`s, so matching does not stop the scan); on a match the
params are deserialized (failure propagates as `Err(invalid_request)`),
for requests the numeric id is required (else `Err(invalid_request)`),
then the handler runs and an `Err` from it is logged and ignored. When no
entry matches, the message is logged and ignored and the result is
`Ok(())`. -/
def dispatch_message (ds : List Descriptor) (msg : RawMessage)
    (s : LsState) (acc : List OutputMsg) : DispatchOutcome :=
  match ds with
  | [] => .ok s acc
  | .notif m parse :: rest =>
    if msg.method = m then
      match parse msg.params with
      | none => .error .invalidRequest s acc
      | some h =>
        match h s with
        | (s', w, .ok) => dispatch_message rest msg s' (acc ++ w)
        | (s', w, .err) => dispatch_message rest msg s' (acc ++ w)
        | (s', w, .exitProc c) => .exited c s' (acc ++ w)
    else dispatch_message rest msg s acc
  | .req m parse :: rest =>
    if msg.method = m then
      match parse msg.params with
      | none => .error .invalidRequest s acc
      | some h =>
        match parsed_numeric_id msg.id with
        | none => .error .invalidRequest s acc
        | some i =>
          match request_dispatch h i s with
          | (s', w, .ok _) => dispatch_message rest msg s' (acc ++ w)
          | (s', w, .err) => dispatch_message rest msg s' (acc ++ w)
          | (s', w, .panic) => .panicked s' (acc ++ w)
    else dispatch_message rest msg s acc

/-- The `serde_json` serialization of the unit struct `Ack`, the trivial
acknowledgement response of `ShutdownRequest`. -/
def ackJson : Json := Json.null

/-- `ExitNotification`: method `"exit"`; `NoParams::deserialize` always
succeeds; `handle` loads the `shut_down` flag and calls
`std::process::exit(if shut_down { 0 } else { 1 })`. -/
def exitNotificationDesc : Descriptor :=
  .notif "exit" (fun _ => some (fun s =>
    (s, [], .exitProc (if s.shut_down then 0 else 1))))

/-- `ShutdownRequest`: method `"shutdown"`; `NoParams::deserialize` always
succeeds; `handle` stores `true` into the `shut_down` flag and returns
`Ok(Ack)`. -/
def shutdownRequestDesc : Descriptor :=
  .req "shutdown" (fun _ => some (fun _ s =>
    ({ s with shut_down := true }, [], .ok (.payload ackJson))))

/-- A `url::Url`, modelled at the boundary used by `get_root_path`: its
scheme and the result of `to_file_path()` (`none` when the conversion
fails). -/
structure Url where
  scheme : String
  file_path : Option String

/-- The fields of `ls_types::InitializeParams` read by
`InitializeRequest::handle` and `get_root_path`. -/
structure InitializeParams where
  root_path : Option String
  root_uri : Option Url
  initialization_options : Option Json

/-- `get_root_path`: prefer `root_uri` (panicking — modelled as `none` —
when its scheme is not `file` or it has no file path), otherwise fall back
to `root_path` (panicking when that is also absent). -/
def get_root_path (p : InitializeParams) : Option String :=
  match p.root_uri with
  | some uri => if uri.scheme = "file" then uri.file_path else none
  | none => p.root_path

/-- The `serde` serialization of the `InitializeResult` literal built by
`InitializeRequest::handle` (field names follow the LSP serialization of
`ls_types`; `None` fields are omitted). -/
def initializeResultJson : Json :=
  Json.obj [("capabilities", Json.obj
    [ ("textDocumentSync", Json.num 2)
    , ("hoverProvider", Json.bool true)
    , ("completionProvider", Json.obj
        [ ("resolveProvider", Json.bool true)
        , ("triggerCharacters", Json.arr [Json.str ".", Json.str ":"])])
    , ("definitionProvider", Json.bool true)
    , ("referencesProvider", Json.bool true)
    , ("documentHighlightProvider", Json.bool true)
    , ("documentSymbolProvider", Json.bool true)
    , ("workspaceSymbolProvider", Json.bool true)
    , ("codeActionProvider", Json.bool true)
    , ("documentFormattingProvider", Json.bool true)
    , ("executeCommandProvider", Json.obj
        [("commands", Json.arr [Json.str "rls.applySuggestion"])])
    , ("renameProvider", Json.bool true)
    , ("documentRangeFormattingProvider", Json.bool false)])]

/-- `InitializeRequest::handle`: writes its single result with
`out.success(id, result)` inside the handler, then resolves the root path
(`get_root_path` panics — after the write — when no root is available),
hands off to `ctx.init` (an external collaborator that does not write
responses), and returns `Ok(NoResponse)`. -/
def initialize_handle (ip : InitializeParams) (i : Nat) (s : LsState) :
    LsState × List OutputMsg × ReqOutcome :=
  (s, [OutputMsg.success i initializeResultJson],
   match get_root_path ip with
   | some _ => .ok .noResponse
   | none => .panic)

/-- `InitializeRequest`: method `"initialize"`. The deserializer of
`ls_types::InitializeParams` lives in an external crate and is therefore a
parameter (`initDeser`); when it succeeds the handler is
`initialize_handle`. -/
def initializeRequestDesc (initDeser : Json → Option InitializeParams) : Descriptor :=
  .req "initialize" (fun q => (initDeser q).map initialize_handle)

/-- The dispatch table of `match_action!` in source order: the
notification entries (`ExitNotification` first, then the seven external
notification actions `extN`), followed by the request entries
(`ShutdownRequest`, `InitializeRequest`, then the fifteen external
request actions `extR`). The external actions live in `src/actions`,
outside the dispatch core; their descriptors are parameters. -/
def fullRegistry (initDeser : Json → Option InitializeParams)
    (extN extR : List Descriptor) : List Descriptor :=
  exitNotificationDesc ::
    (extN ++ shutdownRequestDesc :: initializeRequestDesc initDeser :: extR)

/-- `ServerStateChange`: how the service should proceed after one
message. -/
inductive ServerStateChange where
  | Continue
  | Break
deriving DecidableEq

/-- The observable result of one `handle_message` call: a
`ServerStateChange`, a process exit (from the exit handler), or a Rust
panic. -/
inductive StepResult where
  | state (c : ServerStateChange)
  | exited (code : Nat)
  | panicked

/-- One `handle_message` iteration: its result, the server state after it,
and the messages it wrote to the output sink, in order. -/
structure StepOut where
  result : StepResult
  state : LsState
  out : List OutputMsg

/-- The transport event driving one `handle_message` call:
`readFailure` models `msg_reader.read_message()` returning `None`;
`text p` models a delivered message string, represented by its JSON parse
result `p` (`none` when the text is not valid JSON). -/
inductive Inbound where
  | readFailure
  | text (parsed : Option Json)

/-- `LsService::handle_message`: read, parse (read failures and every
parse/validation failure emit `out.failure(Id::Null, Error::parse_error())`
and `Break` — the specific validation error is discarded), drop id-only
messages (`Continue`), apply the shutdown gate (when `shut_down` is set
and the method is not `"exit"`, `Continue` without dispatching), then
dispatch; a dispatch error emits `out.failure(id.unwrap_or(Id::Null), e)`
and `Break`, otherwise `Continue`. -/
def handle_message (initDeser : Json → Option InitializeParams)
    (extN extR : List Descriptor) (inb : Inbound) (s : LsState) : StepOut :=
  match inb with
  | .readFailure => ⟨.state .Break, s, [.failure .null .parseError]⟩
  | .text p =>
    match parse_message p with
    | .panic => ⟨.panicked, s, []⟩
    | .error _ => ⟨.state .Break, s, [.failure .null .parseError]⟩
    | .ok none => ⟨.state .Continue, s, []⟩
    | .ok (some rm) =>
      if s.shut_down = true ∧ rm.method ≠ "exit" then
        ⟨.state .Continue, s, []⟩
      else
        match dispatch_message (fullRegistry initDeser extN extR) rm s [] with
        | .ok s' out => ⟨.state .Continue, s', out⟩
        | .error e s' out => ⟨.state .Break, s', out ++ [.failure (rm.id.getD .null) e]⟩
        | .exited c s' out => ⟨.exited c, s', out⟩
        | .panicked s' out => ⟨.panicked, s', out⟩

/-- Is this output message a success response keyed to request id `i`? -/
def isSuccessFor (i : Nat) : OutputMsg → Bool
  | .success j _ => j == i
  | _ => false

/-- Number of success responses keyed to request id `i` in an
output-sink trace. -/
def countSuccessFor (i : Nat) (out : List OutputMsg) : Nat :=
  (out.filter (isSuccessFor i)).length

/-- The JSON value of `{"jsonrpc":"2.0","method":"exit"}`. -/
def exitMsgJson : Json :=
  Json.obj [("jsonrpc", Json.str "2.0"), ("method", Json.str "exit")]

/-- The JSON value of `{"jsonrpc":"2.0","id":n,"method":"shutdown"}`. -/
def shutdownMsgJson (n : Nat) : Json :=
  Json.obj [("jsonrpc", Json.str "2.0"), ("id", Json.num n),
            ("method", Json.str "shutdown")]

/-- The JSON value of
`{"jsonrpc":"2.0","id":n,"method":"initialize","params":{...fs...}}`. -/
def initializeMsgJson (n : Nat) (fs : List (String × Json)) : Json :=
  Json.obj [("jsonrpc", Json.str "2.0"), ("id", Json.num n),
            ("method", Json.str "initialize"), ("params", Json.obj fs)]

/-- The JSON value of `{"method":"shutdown","id":true}`: a message whose
id is a shape `jsonrpc_core::Id` cannot deserialize. -/
def boolIdMsgJson : Json :=
  Json.obj [("method", Json.str "shutdown"), ("id", Json.bool true)]

/-- The JSON value of `{"jsonrpc":"2.0","id":"42","method":"shutdown"}`:
a digit-only string id. -/
def strIdMsgJson : Json :=
  Json.obj [("jsonrpc", Json.str "2.0"), ("id", Json.str "42"),
            ("method", Json.str "shutdown")]

/-- The JSON value of `{"jsonrpc":"2.0","id":"abc","method":"shutdown"}`:
a string id with no numeric coercion. -/
def abcIdMsgJson : Json :=
  Json.obj [("jsonrpc", Json.str "2.0"), ("id", Json.str "abc"),
            ("method", Json.str "shutdown")]

/-- The JSON value of `{"method":"m","id":true,"params":{}}`: a valid
message envelope (string method, object params) whose id is a boolean. -/
def boolIdObjParamsJson : Json :=
  Json.obj [("method", Json.str "m"), ("id", Json.bool true),
            ("params", Json.obj [])]

/-- The JSON value of `{"id":true}`: valid JSON lacking a `method` field,
with a boolean id. -/
def noMethodBoolIdJson : Json := Json.obj [("id", Json.bool true)]

/-- The JSON value of `{"method":5}`: a structurally invalid envelope
(non-string method). -/
def nonStringMethodJson : Json := Json.obj [("method", Json.num 5)]

/-! ## Helper lemmas -/

/-- Methods absent from a table's method column miss every entry. -/
theorem not_mem_methods {m : String} {ds : List Descriptor}
    (h : m ∉ ds.map Descriptor.method) : ∀ d ∈ ds, m ≠ d.method :=
  fun d hd heq => absurd (List.mem_map_of_mem Descriptor.method hd) (heq ▸ h)

/-- An entry whose method differs from the message's is skipped. -/
theorem dispatch_message_skip (d : Descriptor) (rest : List Descriptor)
    (msg : RawMessage) (s : LsState) (acc : List OutputMsg)
    (h : msg.method ≠ d.method) :
    dispatch_message (d :: rest) msg s acc = dispatch_message rest msg s acc := by
  cases d <;> simp only [Descriptor.method] at h <;>
    simp only [dispatch_message, if_neg h]

/-- A prefix of entries whose methods all differ from the message's is
skipped. -/
theorem dispatch_message_skip_append (ds₁ ds₂ : List Descriptor)
    (msg : RawMessage) (s : LsState) (acc : List OutputMsg)
    (h : ∀ d ∈ ds₁, msg.method ≠ d.method) :
    dispatch_message (ds₁ ++ ds₂) msg s acc = dispatch_message ds₂ msg s acc := by
  induction ds₁ with
  | nil => rfl
  | cons d ds ih =>
    rw [List.cons_append,
        dispatch_message_skip d _ msg s acc (h d (List.mem_cons_self d ds)),
        ih (fun d' hd' => h d' (List.mem_cons_of_mem d hd'))]

/-- When no entry matches, `dispatch_message` returns `Ok(())` with no
state change and no writes. -/
theorem dispatch_message_all_miss (ds : List Descriptor)
    (msg : RawMessage) (s : LsState) (acc : List OutputMsg)
    (h : ∀ d ∈ ds, msg.method ≠ d.method) :
    dispatch_message ds msg s acc = .ok s acc := by
  induction ds with
  | nil => rfl
  | cons d rest ih =>
    rw [dispatch_message_skip d rest msg s acc (h d (List.mem_cons_self d rest)),
        ih (fun d' hd' => h d' (List.mem_cons_of_mem d hd'))]

/-- A `u64`-ranged JSON integer deserializes to `Id::Num` of that value. -/
theorem idFromValue_nat (n : Nat) (hn : n < u64Size) :
    idFromValue (Json.num (n : Int)) = some (.num n) := by
  simp only [idFromValue]
  rw [if_pos ⟨Int.natCast_nonneg n, by exact_mod_cast hn⟩, Int.toNat_natCast]

/-- When id extraction does not panic, `parse_message` continues with the
method step. -/
theorem parse_message_with_id (cmd : Json) (i : Option RpcId)
    (h : extract_id cmd = some i) :
    parse_message (some cmd) = method_step cmd i := by
  show (match extract_id cmd with
        | none => ParseOutcome.panic
        | some i => method_step cmd i) = method_step cmd i
  rw [h]

/-- Parsing `{"jsonrpc":"2.0","id":n,"method":"shutdown"}`. -/
theorem parse_shutdownMsg (n : Nat) (hn : n < u64Size) :
    parse_message (some (shutdownMsgJson n))
      = .ok (some ⟨"shutdown", some (.num n), Json.null⟩) := by
  have hid : extract_id (shutdownMsgJson n) = some (some (.num n)) := by
    show (idFromValue (Json.num (n : Int))).map some = _
    rw [idFromValue_nat n hn]; rfl
  rw [parse_message_with_id _ _ hid]
  rfl

/-- Parsing `{"jsonrpc":"2.0","id":n,"method":"initialize","params":{..}}`. -/
theorem parse_initializeMsg (n : Nat) (hn : n < u64Size) (fs : List (String × Json)) :
    parse_message (some (initializeMsgJson n fs))
      = .ok (some ⟨"initialize", some (.num n), Json.obj fs⟩) := by
  have hid : extract_id (initializeMsgJson n fs) = some (some (.num n)) := by
    show (idFromValue (Json.num (n : Int))).map some = _
    rw [idFromValue_nat n hn]; rfl
  rw [parse_message_with_id _ _ hid]
  rfl

/-- `handle_message` on a delivered message text, written as a case split
on the parse outcome. -/
theorem handle_message_text (initDeser : Json → Option InitializeParams)
    (extN extR : List Descriptor) (p : Option Json) (s : LsState) :
    handle_message initDeser extN extR (.text p) s =
      (match parse_message p with
       | .panic => ⟨.panicked, s, []⟩
       | .error _ => ⟨.state .Break, s, [.failure .null .parseError]⟩
       | .ok none => ⟨.state .Continue, s, []⟩
       | .ok (some rm) =>
         if s.shut_down = true ∧ rm.method ≠ "exit" then
           ⟨.state .Continue, s, []⟩
         else
           match dispatch_message (fullRegistry initDeser extN extR) rm s [] with
           | .ok s' out => ⟨.state .Continue, s', out⟩
           | .error e s' out => ⟨.state .Break, s', out ++ [.failure (rm.id.getD .null) e]⟩
           | .exited c s' out => ⟨.exited c, s', out⟩
           | .panicked s' out => ⟨.panicked, s', out⟩) := rfl

/-- On a parsed envelope, `handle_message` is the lifecycle gate followed
by dispatch. -/
theorem handle_message_ok_some (initDeser : Json → Option InitializeParams)
    (extN extR : List Descriptor) (p : Option Json) (rm : RawMessage) (s : LsState)
    (hp : parse_message p = .ok (some rm)) :
    handle_message initDeser extN extR (.text p) s =
      (if s.shut_down = true ∧ rm.method ≠ "exit" then
         ⟨.state .Continue, s, []⟩
       else
         match dispatch_message (fullRegistry initDeser extN extR) rm s [] with
         | .ok s' out => ⟨.state .Continue, s', out⟩
         | .error e s' out => ⟨.state .Break, s', out ++ [.failure (rm.id.getD .null) e]⟩
         | .exited c s' out => ⟨.exited c, s', out⟩
         | .panicked s' out => ⟨.panicked, s', out⟩) := by
  rw [handle_message_text, hp]

/-- On a parse failure, `handle_message` reports `Error::parse_error()`
keyed to the null id. -/
theorem handle_message_parse_failure (initDeser : Json → Option InitializeParams)
    (extN extR : List Descriptor) (p : Option Json) (s : LsState) (e : JsonRpcError)
    (hp : parse_message p = .error e) :
    handle_message initDeser extN extR (.text p) s
      = ⟨.state .Break, s, [.failure .null .parseError]⟩ := by
  rw [handle_message_text, hp]

/-! ## Claims -/

/-- C1: handling an `exit` notification terminates the process with exit
code 0 when the lifecycle flag is true (a `shutdown` request was
successfully handled earlier), and with exit code 1 when no prior
shutdown was requested. The exit handler runs whatever the flag is (the
gate lets `"exit"` through), performs no writes, and leaves the state
unchanged. -/
theorem exit_code_follows_shutdown_flag (initDeser : Json → Option InitializeParams)
    (extN extR : List Descriptor) (s : LsState) :
    handle_message initDeser extN extR (.text (some exitMsgJson)) s
      = ⟨.exited (if s.shut_down then 0 else 1), s, []⟩ := by
  have hp : parse_message (some exitMsgJson)
      = .ok (some ⟨"exit", none, Json.null⟩) := rfl
  rw [handle_message_ok_some initDeser extN extR _ _ s hp]
  rw [if_neg (fun hc => hc.2 rfl)]
  rfl

/-- C3: while the lifecycle flag is true, `handle_message` on any parsed
envelope whose method is not `"exit"` returns `Continue` without invoking
any handler and without writing anything: the state is unchanged and the
output-sink trace is empty. -/
theorem shutdown_gate_drops_non_exit (initDeser : Json → Option InitializeParams)
    (extN extR : List Descriptor) (v : Json) (rm : RawMessage) (s : LsState)
    (hs : s.shut_down = true)
    (hp : parse_message (some v) = .ok (some rm))
    (hm : rm.method ≠ "exit") :
    handle_message initDeser extN extR (.text (some v)) s
      = ⟨.state .Continue, s, []⟩ := by
  rw [handle_message_ok_some initDeser extN extR _ _ s hp, if_pos ⟨hs, hm⟩]

/-- C3 witness: with the flag set, a `textDocument/hover` envelope is
dropped: `Continue`, unchanged state, no output. -/
theorem shutdown_gate_drops_non_exit_witness :
    (⟨true⟩ : LsState).shut_down = true ∧
    parse_message (some (Json.obj [("method", Json.str "textDocument/hover")]))
      = .ok (some ⟨"textDocument/hover", none, Json.null⟩) ∧
    ("textDocument/hover" : String) ≠ "exit" ∧
    handle_message (fun _ => none) [] []
        (.text (some (Json.obj [("method", Json.str "textDocument/hover")]))) ⟨true⟩
      = ⟨.state .Continue, ⟨true⟩, []⟩ :=
  ⟨rfl, rfl, by decide,
   shutdown_gate_drops_non_exit (fun _ => none) [] []
     (Json.obj [("method", Json.str "textDocument/hover")])
     ⟨"textDocument/hover", none, Json.null⟩ ⟨true⟩ rfl rfl (by decide)⟩

/-- C4 (code bug): the claim — and the spec — say an id of any
non-numeric, non-digit-string shape is retained as unparseable and makes
request construction fail with an invalid-request error; the code instead
calls `serde_json::from_value(id).unwrap()` inside `parse_message`, which
panics on a boolean (or object, array, negative or fractional number) id
before any request construction. At `{"method":"shutdown","id":true}` the
model panics. The true parts of the claim are also evaluated here: a
digit-only string id `"42"` is coerced to the numeric id 42 (the shutdown
request is then acknowledged under that id), and the string id `"abc"`
fails request construction with an invalid-request error. -/
theorem unparseable_id_panics :
    parse_message (some boolIdMsgJson) = .panic ∧
    handle_message (fun _ => none) [] [] (.text (some boolIdMsgJson)) ⟨false⟩
      = ⟨.panicked, ⟨false⟩, []⟩ ∧
    parsed_numeric_id (some (.str "42")) = some 42 ∧
    handle_message (fun _ => none) [] [] (.text (some strIdMsgJson)) ⟨false⟩
      = ⟨.state .Continue, ⟨true⟩, [.success 42 ackJson]⟩ ∧
    parsed_numeric_id (some (.str "abc")) = none ∧
    handle_message (fun _ => none) [] [] (.text (some abcIdMsgJson)) ⟨false⟩
      = ⟨.state .Break, ⟨false⟩, [.failure (.str "abc") .invalidRequest]⟩ :=
  ⟨rfl, rfl, rfl, rfl, rfl, rfl⟩

/-- C9 counterexample: at the structurally invalid envelope
`{"method":5}`, `parse_message` fails with `invalid_request`, but the
response written by the loop is `parse_error` — not the error
corresponding to the failure. -/
theorem validation_error_response_cex :
    parse_message (some nonStringMethodJson) = .error .invalidRequest ∧
    handle_message (fun _ => none) [] [] (.text (some nonStringMethodJson)) ⟨false⟩
      = ⟨.state .Break, ⟨false⟩, [.failure .null .parseError]⟩ ∧
    JsonRpcError.parseError ≠ .invalidRequest :=
  ⟨rfl, rfl, by decide⟩

/-- C9 (amended): on every parse or validation failure from
`parse_message`, the loop writes a parse-error response keyed to a null
id — regardless of which failure occurred, the specific validation error
being discarded — and returns `Break`; in particular the input text
`not json` (malformed JSON, `p = none`) does so. -/
theorem parse_failure_emits_parse_error (initDeser : Json → Option InitializeParams)
    (extN extR : List Descriptor) (p : Option Json) (s : LsState) (e : JsonRpcError)
    (hp : parse_message p = .error e) :
    handle_message initDeser extN extR (.text p) s
        = ⟨.state .Break, s, [.failure .null .parseError]⟩ ∧
    handle_message initDeser extN extR (.text none) s
        = ⟨.state .Break, s, [.failure .null .parseError]⟩ :=
  ⟨handle_message_parse_failure initDeser extN extR p s e hp,
   handle_message_parse_failure initDeser extN extR none s .parseError rfl⟩

/-- C9 witness: the malformed input (`not json`) instantiates the amended
claim. -/
theorem parse_failure_emits_parse_error_witness :
    parse_message none = .error .parseError ∧
    handle_message (fun _ => none) [] [] (.text none) ⟨false⟩
      = ⟨.state .Break, ⟨false⟩, [.failure .null .parseError]⟩ :=
  ⟨rfl, (parse_failure_emits_parse_error (fun _ => none) [] [] none ⟨false⟩
          .parseError rfl).1⟩

/-- C5 counterexample: `{"method":"m","id":true,"params":{}}` is a valid
JSON message with a string method and object params, but `parse_message`
does not keep the params and succeed — it panics on the boolean id
(extracted before the params step), so no envelope is ever produced. -/
theorem params_shape_claim_cex :
    parse_message (some boolIdObjParamsJson) = .panic ∧
    (∀ rm : Option RawMessage, parse_message (some boolIdObjParamsJson) ≠ .ok rm) := by
  refine ⟨rfl, fun rm h => ?_⟩
  exact ParseOutcome.noConfusion
    ((rfl : parse_message (some boolIdObjParamsJson) = .panic).symm.trans h)

/-- C5 (amended): for every valid JSON message with a string method whose
`id` field, if present, deserializes as a JSON-RPC id (null, `u64`
number, or string — so that id extraction does not panic),
`parse_message` keeps params that are a JSON object or array unchanged,
normalizes absent or JSON-null params to JSON null, and fails with
`InvalidRequest` for any other params shape (bare boolean, number, or
string). -/
theorem params_shape_normalization (v : Json) (m : String) (i : Option RpcId)
    (hid : extract_id v = some i)
    (hm : v.get "method" = some (Json.str m)) :
    (∀ fs, v.get "params" = some (Json.obj fs) →
       parse_message (some v) = .ok (some ⟨m, i, Json.obj fs⟩)) ∧
    (∀ xs, v.get "params" = some (Json.arr xs) →
       parse_message (some v) = .ok (some ⟨m, i, Json.arr xs⟩)) ∧
    (v.get "params" = none →
       parse_message (some v) = .ok (some ⟨m, i, Json.null⟩)) ∧
    (v.get "params" = some Json.null →
       parse_message (some v) = .ok (some ⟨m, i, Json.null⟩)) ∧
    (∀ b, v.get "params" = some (Json.bool b) →
       parse_message (some v) = .error .invalidRequest) ∧
    (∀ k, v.get "params" = some (Json.num k) →
       parse_message (some v) = .error .invalidRequest) ∧
    (∀ t, v.get "params" = some (Json.str t) →
       parse_message (some v) = .error .invalidRequest) := by
  have hpm : parse_message (some v) = params_step i m (v.get "params") := by
    rw [parse_message_with_id v i hid]
    unfold method_step; rw [hm]
  refine ⟨?_, ?_, ?_, ?_, ?_, ?_, ?_⟩
  · intro fs hx; rw [hpm, hx]; rfl
  · intro xs hx; rw [hpm, hx]; rfl
  · intro hx; rw [hpm, hx]; rfl
  · intro hx; rw [hpm, hx]; rfl
  · intro b hx; rw [hpm, hx]; rfl
  · intro k hx; rw [hpm, hx]; rfl
  · intro t hx; rw [hpm, hx]; rfl

/-- C5 witness: `{"method":"m","params":"x"}` (no id — extraction yields
`some none`) has bare-string params and fails with `InvalidRequest`. -/
theorem params_shape_normalization_witness :
    extract_id (Json.obj [("method", Json.str "m"), ("params", Json.str "x")])
      = some none ∧
    (Json.obj [("method", Json.str "m"), ("params", Json.str "x")]).get "method"
      = some (Json.str "m") ∧
    (Json.obj [("method", Json.str "m"), ("params", Json.str "x")]).get "params"
      = some (Json.str "x") ∧
    parse_message (some (Json.obj [("method", Json.str "m"), ("params", Json.str "x")]))
      = .error .invalidRequest :=
  ⟨rfl, rfl, rfl,
   (params_shape_normalization
      (Json.obj [("method", Json.str "m"), ("params", Json.str "x")])
      "m" none rfl rfl).2.2.2.2.2.2 "x" rfl⟩

/-- C6 counterexample: `{"id":true}` is syntactically valid JSON lacking a
`method` field, but `parse_message` does not return `None` — the id is
extracted (and its `.unwrap()` panics) before the method check, so the
loop outcome is a panic, not `Continue`. -/
theorem missing_method_claim_cex :
    parse_message (some noMethodBoolIdJson) = .panic ∧
    handle_message (fun _ => none) [] [] (.text (some noMethodBoolIdJson)) ⟨false⟩
      = ⟨.panicked, ⟨false⟩, []⟩ ∧
    parse_message (some noMethodBoolIdJson) ≠ .ok none := by
  refine ⟨rfl, rfl, fun h => ?_⟩
  exact ParseOutcome.noConfusion
    ((rfl : parse_message (some noMethodBoolIdJson) = .panic).symm.trans h)

/-- C6 (amended): for every syntactically valid JSON message lacking a
`method` field whose `id` field, if present, deserializes as a JSON-RPC
id (so that id extraction does not panic), `parse_message` returns `None`
rather than an error, and the service loop returns `Continue` without
dispatching and without writing any output. -/
theorem missing_method_yields_none (initDeser : Json → Option InitializeParams)
    (extN extR : List Descriptor) (v : Json) (i : Option RpcId) (s : LsState)
    (hid : extract_id v = some i) (hm : v.get "method" = none) :
    parse_message (some v) = .ok none ∧
    handle_message initDeser extN extR (.text (some v)) s
      = ⟨.state .Continue, s, []⟩ := by
  have hp : parse_message (some v) = .ok none := by
    rw [parse_message_with_id v i hid]
    unfold method_step; rw [hm]
  refine ⟨hp, ?_⟩
  rw [handle_message_text, hp]

/-- C6 witness: the empty JSON object `{}` has no method and no id; it
parses to `None` and the loop continues with no output. -/
theorem missing_method_yields_none_witness :
    extract_id (Json.obj []) = some none ∧
    (Json.obj []).get "method" = none ∧
    parse_message (some (Json.obj [])) = .ok none ∧
    handle_message (fun _ => none) [] [] (.text (some (Json.obj []))) ⟨false⟩
      = ⟨.state .Continue, ⟨false⟩, []⟩ :=
  ⟨rfl, rfl,
   (missing_method_yields_none (fun _ => none) [] [] (Json.obj []) none ⟨false⟩
      rfl rfl).1,
   (missing_method_yields_none (fun _ => none) [] [] (Json.obj []) none ⟨false⟩
      rfl rfl).2⟩

/-- A matching request entry whose handler succeeds contributes the
handler's own writes plus the response send, and the table scan
continues. -/
theorem dispatch_message_req_ok (m : String)
    (pfn : Json → Option (Nat → LsState → LsState × List OutputMsg × ReqOutcome))
    (rest : List Descriptor) (msg : RawMessage) (s s' : LsState)
    (hf : Nat → LsState → LsState × List OutputMsg × ReqOutcome)
    (i : Nat) (w : List OutputMsg) (resp : ResponseVal) (acc : List OutputMsg)
    (hmm : msg.method = m)
    (hparse : pfn msg.params = some hf)
    (hid : parsed_numeric_id msg.id = some i)
    (hh : hf i s = (s', w, .ok resp)) :
    dispatch_message (.req m pfn :: rest) msg s acc
      = dispatch_message rest msg s' (acc ++ (w ++ respSend i resp)) := by
  have hrd : request_dispatch hf i s = (s', w ++ respSend i resp, .ok resp) := by
    unfold request_dispatch; rw [hh]
  simp only [dispatch_message]
  rw [if_pos hmm]
  simp only [hparse, hid, hrd]

/-- A matching request entry whose handler fails contributes only the
handler's own writes — no response, no error response — and the table
scan continues. -/
theorem dispatch_message_req_err (m : String)
    (pfn : Json → Option (Nat → LsState → LsState × List OutputMsg × ReqOutcome))
    (rest : List Descriptor) (msg : RawMessage) (s s' : LsState)
    (hf : Nat → LsState → LsState × List OutputMsg × ReqOutcome)
    (i : Nat) (w : List OutputMsg) (acc : List OutputMsg)
    (hmm : msg.method = m)
    (hparse : pfn msg.params = some hf)
    (hid : parsed_numeric_id msg.id = some i)
    (hh : hf i s = (s', w, .err)) :
    dispatch_message (.req m pfn :: rest) msg s acc
      = dispatch_message rest msg s' (acc ++ w) := by
  have hrd : request_dispatch hf i s = (s', w, .err) := by
    unfold request_dispatch; rw [hh]
  simp only [dispatch_message]
  rw [if_pos hmm]
  simp only [hparse, hid, hrd]

/-- The full shutdown pipeline: one ack response, flag set, `Continue`
(shared helper). -/
theorem shutdown_ack_pipeline (initDeser : Json → Option InitializeParams)
    (extN extR : List Descriptor) (n : Nat)
    (hn : n < u64Size)
    (hN : "shutdown" ∉ extN.map Descriptor.method)
    (hR : "shutdown" ∉ extR.map Descriptor.method) :
    handle_message initDeser extN extR (.text (some (shutdownMsgJson n))) ⟨false⟩
      = ⟨.state .Continue, ⟨true⟩, [.success n ackJson]⟩ := by
  have hp := parse_shutdownMsg n hn
  rw [handle_message_ok_some initDeser extN extR _ _ ⟨false⟩ hp]
  rw [if_neg (fun hc => Bool.false_ne_true hc.1)]
  have hd : dispatch_message (fullRegistry initDeser extN extR)
      ⟨"shutdown", some (.num n), Json.null⟩ ⟨false⟩ []
      = .ok ⟨true⟩ [.success n ackJson] := by
    simp only [fullRegistry]
    rw [dispatch_message_skip _ _ _ _ _ (by decide : ("shutdown" : String) ≠ "exit")]
    rw [dispatch_message_skip_append extN _ _ _ _ (not_mem_methods hN)]
    have step : dispatch_message
        (shutdownRequestDesc :: initializeRequestDesc initDeser :: extR)
        (⟨"shutdown", some (.num n), Json.null⟩ : RawMessage) ⟨false⟩
        ([] : List OutputMsg)
        = dispatch_message extR ⟨"shutdown", some (.num n), Json.null⟩ ⟨true⟩
            ([] ++ ([] ++ [.success n ackJson])) := rfl
    rw [step, dispatch_message_all_miss extR _ _ _ (not_mem_methods hR)]
    rfl
  rw [hd]

/-- C2: a dispatched `shutdown` request with a numeric id sets the shared
lifecycle flag to true, writes the trivial success (acknowledgement)
response keyed to that id to the output sink, and the loop returns
`Continue`. Quantified over any id value in `u64` range and any external
handler tables (whose methods differ from `"shutdown"`, as the registered
method constants do by construction). -/
theorem shutdown_request_acks_and_sets_flag (initDeser : Json → Option InitializeParams)
    (extN extR : List Descriptor) (n : Nat)
    (hn : n < u64Size)
    (hN : "shutdown" ∉ extN.map Descriptor.method)
    (hR : "shutdown" ∉ extR.map Descriptor.method) :
    handle_message initDeser extN extR (.text (some (shutdownMsgJson n))) ⟨false⟩
      = ⟨.state .Continue, ⟨true⟩, [.success n ackJson]⟩ :=
  shutdown_ack_pipeline initDeser extN extR n hn hN hR

/-- C2 witness: the spec scenario `{"jsonrpc":"2.0","id":2,"method":"shutdown"}`
with empty external tables. -/
theorem shutdown_request_acks_and_sets_flag_witness :
    (2 < u64Size) ∧
    ("shutdown" ∉ ([] : List Descriptor).map Descriptor.method) ∧
    handle_message (fun _ => none) [] [] (.text (some (shutdownMsgJson 2))) ⟨false⟩
      = ⟨.state .Continue, ⟨true⟩, [.success 2 ackJson]⟩ :=
  ⟨by decide, by decide,
   shutdown_request_acks_and_sets_flag (fun _ => none) [] [] 2 (by decide)
     (by decide) (by decide)⟩

/-- C7: when a parsed envelope's method matches no registered method
name, `dispatch_message` returns success without invoking any handler —
the state is unchanged and nothing is written — and `handle_message`
returns `Continue` (no response, no error reaches the client). -/
theorem unknown_method_ignored (initDeser : Json → Option InitializeParams)
    (extN extR : List Descriptor) (v : Json) (rm : RawMessage) (s : LsState)
    (hp : parse_message (some v) = .ok (some rm))
    (hall : rm.method ∉ (fullRegistry initDeser extN extR).map Descriptor.method) :
    dispatch_message (fullRegistry initDeser extN extR) rm s [] = .ok s [] ∧
    handle_message initDeser extN extR (.text (some v)) s
      = ⟨.state .Continue, s, []⟩ := by
  have hd := dispatch_message_all_miss (fullRegistry initDeser extN extR) rm s []
    (not_mem_methods hall)
  refine ⟨hd, ?_⟩
  rw [handle_message_ok_some initDeser extN extR _ _ s hp]
  by_cases hg : s.shut_down = true ∧ rm.method ≠ "exit"
  · rw [if_pos hg]
  · rw [if_neg hg, hd]

/-- C7 witness: the unregistered method `"unknown/method"` is silently
ignored with the core registry. -/
theorem unknown_method_ignored_witness :
    parse_message (some (Json.obj [("method", Json.str "unknown/method")]))
      = .ok (some ⟨"unknown/method", none, Json.null⟩) ∧
    ("unknown/method" ∉ (fullRegistry (fun _ => none) [] []).map Descriptor.method) ∧
    dispatch_message (fullRegistry (fun _ => none) [] [])
        ⟨"unknown/method", none, Json.null⟩ ⟨false⟩ [] = .ok ⟨false⟩ [] ∧
    handle_message (fun _ => none) [] []
        (.text (some (Json.obj [("method", Json.str "unknown/method")]))) ⟨false⟩
      = ⟨.state .Continue, ⟨false⟩, []⟩ :=
  ⟨rfl, by decide,
   (unknown_method_ignored (fun _ => none) [] []
      (Json.obj [("method", Json.str "unknown/method")])
      ⟨"unknown/method", none, Json.null⟩ ⟨false⟩ rfl (by decide)).1,
   (unknown_method_ignored (fun _ => none) [] []
      (Json.obj [("method", Json.str "unknown/method")])
      ⟨"unknown/method", none, Json.null⟩ ⟨false⟩ rfl (by decide)).2⟩

/-- A matching notification entry whose handler fails contributes only
the handler's own writes — no response is ever sent for a notification —
and the table scan continues. -/
theorem dispatch_message_notif_err (m : String)
    (nfn : Json → Option (LsState → LsState × List OutputMsg × NotifOutcome))
    (rest : List Descriptor) (msg : RawMessage) (s s' : LsState)
    (nh : LsState → LsState × List OutputMsg × NotifOutcome)
    (w : List OutputMsg) (acc : List OutputMsg)
    (hmm : msg.method = m)
    (hparse : nfn msg.params = some nh)
    (hh : nh s = (s', w, .err)) :
    dispatch_message (.notif m nfn :: rest) msg s acc
      = dispatch_message rest msg s' (acc ++ w) := by
  simp only [dispatch_message]
  rw [if_pos hmm]
  simp only [hparse, hh]

/-- C8: when a matched handler's own `handle` call returns an error,
`dispatch_message` still returns success, the output gains only the
handler's own writes — for a request, no response at all is sent for that
id, and no error response either — and the loop continues with
`Continue`. Part one covers a failing notification handler (sitting
anywhere in the external notification table); part two covers a failing
request handler (sitting anywhere in the external request table). -/
theorem handler_failure_swallowed :
    (∀ (initDeser : Json → Option InitializeParams)
       (n₁ n₂ extR : List Descriptor) (m : String)
       (nfn : Json → Option (LsState → LsState × List OutputMsg × NotifOutcome))
       (nh : LsState → LsState × List OutputMsg × NotifOutcome)
       (v : Json) (rm : RawMessage) (s s' : LsState) (w : List OutputMsg),
       parse_message (some v) = .ok (some rm) → rm.method = m →
       s.shut_down = false →
       m ≠ "exit" → m ≠ "shutdown" → m ≠ "initialize" →
       m ∉ n₁.map Descriptor.method → m ∉ n₂.map Descriptor.method →
       m ∉ extR.map Descriptor.method →
       nfn rm.params = some nh → nh s = (s', w, .err) →
       dispatch_message (fullRegistry initDeser (n₁ ++ .notif m nfn :: n₂) extR) rm s []
         = .ok s' w ∧
       handle_message initDeser (n₁ ++ .notif m nfn :: n₂) extR (.text (some v)) s
         = ⟨.state .Continue, s', w⟩) ∧
    (∀ (initDeser : Json → Option InitializeParams)
       (extN r₁ r₂ : List Descriptor) (m : String)
       (pfn : Json → Option (Nat → LsState → LsState × List OutputMsg × ReqOutcome))
       (hf : Nat → LsState → LsState × List OutputMsg × ReqOutcome)
       (v : Json) (rm : RawMessage) (i : Nat) (s s' : LsState) (w : List OutputMsg),
       parse_message (some v) = .ok (some rm) → rm.method = m →
       s.shut_down = false →
       m ≠ "exit" → m ≠ "shutdown" → m ≠ "initialize" →
       m ∉ extN.map Descriptor.method → m ∉ r₁.map Descriptor.method →
       m ∉ r₂.map Descriptor.method →
       pfn rm.params = some hf → parsed_numeric_id rm.id = some i →
       hf i s = (s', w, .err) →
       dispatch_message (fullRegistry initDeser extN (r₁ ++ .req m pfn :: r₂)) rm s []
         = .ok s' w ∧
       handle_message initDeser extN (r₁ ++ .req m pfn :: r₂) (.text (some v)) s
         = ⟨.state .Continue, s', w⟩) := by
  constructor
  · intro initDeser n₁ n₂ extR m nfn nh v rm s s' w
        hp hmm hsd hxe hxs hxi h1 h2 hR hparse hh
    subst hmm
    have hd : dispatch_message
        (fullRegistry initDeser (n₁ ++ .notif rm.method nfn :: n₂) extR) rm s []
        = .ok s' w := by
      simp only [fullRegistry]
      rw [dispatch_message_skip _ _ _ _ _ hxe]
      rw [List.append_assoc, List.cons_append]
      rw [dispatch_message_skip_append n₁ _ _ _ _ (not_mem_methods h1)]
      rw [dispatch_message_notif_err rm.method nfn _ rm s s' nh w [] rfl hparse hh]
      rw [dispatch_message_skip_append n₂ _ _ _ _ (not_mem_methods h2)]
      rw [dispatch_message_skip _ _ _ _ _ hxs]
      rw [dispatch_message_skip _ _ _ _ _ hxi]
      rw [dispatch_message_all_miss extR _ _ _ (not_mem_methods hR)]
      rw [List.nil_append]
    refine ⟨hd, ?_⟩
    rw [handle_message_ok_some initDeser (n₁ ++ .notif rm.method nfn :: n₂) extR _ _ s hp]
    rw [if_neg (fun hc => Bool.false_ne_true (hsd ▸ hc.1)), hd]
  · intro initDeser extN r₁ r₂ m pfn hf v rm i s s' w
        hp hmm hsd hxe hxs hxi hN h1 h2 hparse hid hh
    subst hmm
    have hd : dispatch_message
        (fullRegistry initDeser extN (r₁ ++ .req rm.method pfn :: r₂)) rm s []
        = .ok s' w := by
      simp only [fullRegistry]
      rw [dispatch_message_skip _ _ _ _ _ hxe]
      rw [dispatch_message_skip_append extN _ _ _ _ (not_mem_methods hN)]
      rw [dispatch_message_skip _ _ _ _ _ hxs]
      rw [dispatch_message_skip _ _ _ _ _ hxi]
      rw [dispatch_message_skip_append r₁ _ _ _ _ (not_mem_methods h1)]
      rw [dispatch_message_req_err rm.method pfn r₂ rm s s' hf i w [] rfl hparse hid hh]
      rw [dispatch_message_all_miss r₂ _ _ _ (not_mem_methods h2)]
      rw [List.nil_append]
    refine ⟨hd, ?_⟩
    rw [handle_message_ok_some initDeser extN (r₁ ++ .req rm.method pfn :: r₂) _ _ s hp]
    rw [if_neg (fun hc => Bool.false_ne_true (hsd ▸ hc.1)), hd]

/-- C8 witness: a `textDocument/didOpen` notification and a
`textDocument/hover` request whose handlers fail each produce no output
at all and the loop continues. -/
theorem handler_failure_swallowed_witness :
    parse_message (some (Json.obj [("method", Json.str "textDocument/didOpen")]))
      = .ok (some ⟨"textDocument/didOpen", none, Json.null⟩) ∧
    ((fun _ => some (fun t => (t, [], .err))) :
        Json → Option (LsState → LsState × List OutputMsg × NotifOutcome))
      Json.null = some (fun t => (t, [], .err)) ∧
    handle_message (fun _ => none)
        ([] ++ .notif "textDocument/didOpen" (fun _ => some (fun t => (t, [], .err))) :: [])
        []
        (.text (some (Json.obj [("method", Json.str "textDocument/didOpen")]))) ⟨false⟩
      = ⟨.state .Continue, ⟨false⟩, []⟩ ∧
    parse_message (some (Json.obj [("method", Json.str "textDocument/hover"),
                                   ("id", Json.num 9)]))
      = .ok (some ⟨"textDocument/hover", some (.num 9), Json.null⟩) ∧
    parsed_numeric_id (some (.num 9)) = some 9 ∧
    handle_message (fun _ => none) []
        ([] ++ .req "textDocument/hover" (fun _ => some (fun _ t => (t, [], .err))) :: [])
        (.text (some (Json.obj [("method", Json.str "textDocument/hover"),
                                ("id", Json.num 9)]))) ⟨false⟩
      = ⟨.state .Continue, ⟨false⟩, []⟩ :=
  ⟨rfl, rfl,
   (handler_failure_swallowed.1 (fun _ => none) [] [] [] "textDocument/didOpen"
      (fun _ => some (fun t => (t, [], .err))) (fun t => (t, [], .err))
      (Json.obj [("method", Json.str "textDocument/didOpen")])
      ⟨"textDocument/didOpen", none, Json.null⟩ ⟨false⟩ ⟨false⟩ []
      rfl rfl rfl (by decide) (by decide) (by decide) (by decide) (by decide)
      (by decide) rfl rfl).2,
   rfl, rfl,
   (handler_failure_swallowed.2 (fun _ => none) [] [] [] "textDocument/hover"
      (fun _ => some (fun _ t => (t, [], .err))) (fun _ t => (t, [], .err))
      (Json.obj [("method", Json.str "textDocument/hover"), ("id", Json.num 9)])
      ⟨"textDocument/hover", some (.num 9), Json.null⟩ 9 ⟨false⟩ ⟨false⟩ []
      rfl rfl rfl (by decide) (by decide) (by decide) (by decide) (by decide)
      (by decide) rfl rfl rfl).2⟩

/-- The full initialize pipeline: the handler writes its single result
inside `handle`, returns `NoResponse`, the post-handle send adds nothing,
the loop continues (shared helper). -/
theorem initialize_pipeline (initDeser : Json → Option InitializeParams)
    (extN extR : List Descriptor) (n : Nat) (hn : n < u64Size)
    (hN : "initialize" ∉ extN.map Descriptor.method)
    (hR : "initialize" ∉ extR.map Descriptor.method)
    (fs : List (String × Json)) (p : InitializeParams) (path : String)
    (hdeser : initDeser (Json.obj fs) = some p)
    (hroot : get_root_path p = some path) :
    handle_message initDeser extN extR (.text (some (initializeMsgJson n fs))) ⟨false⟩
      = ⟨.state .Continue, ⟨false⟩, [.success n initializeResultJson]⟩ := by
  have hp := parse_initializeMsg n hn fs
  rw [handle_message_ok_some initDeser extN extR _ _ ⟨false⟩ hp]
  rw [if_neg (fun hc => Bool.false_ne_true hc.1)]
  have hparse : ((fun q => (initDeser q).map initialize_handle) :
      Json → Option (Nat → LsState → LsState × List OutputMsg × ReqOutcome))
      (Json.obj fs) = some (initialize_handle p) := by
    show (initDeser (Json.obj fs)).map initialize_handle = _
    rw [hdeser]; rfl
  have hh : initialize_handle p n ⟨false⟩
      = (⟨false⟩, [OutputMsg.success n initializeResultJson], .ok .noResponse) := by
    unfold initialize_handle
    rw [hroot]
  have hd : dispatch_message (fullRegistry initDeser extN extR)
      ⟨"initialize", some (.num n), Json.obj fs⟩ ⟨false⟩ []
      = .ok ⟨false⟩ [.success n initializeResultJson] := by
    simp only [fullRegistry]
    rw [dispatch_message_skip _ _ _ _ _ (by decide : ("initialize" : String) ≠ "exit")]
    rw [dispatch_message_skip_append extN _ _ _ _ (not_mem_methods hN)]
    rw [dispatch_message_skip _ _ _ _ _ (by decide : ("initialize" : String) ≠ "shutdown")]
    simp only [initializeRequestDesc]
    rw [dispatch_message_req_ok "initialize" (fun q => (initDeser q).map initialize_handle)
        extR (⟨"initialize", some (.num n), Json.obj fs⟩ : RawMessage) ⟨false⟩ ⟨false⟩
        (initialize_handle p) n
        [OutputMsg.success n initializeResultJson] ResponseVal.noResponse []
        rfl hparse rfl hh]
    rw [dispatch_message_all_miss extR _ _ _ (not_mem_methods hR)]
    rfl
  rw [hd]

/-- C10: for every request whose handler returns success, exactly one
success response bearing the request's id is written. Part one:
`Request::dispatch`'s post-handle send contributes exactly the handler's
writes plus `Response::send`, which writes nothing for `NoResponse` and
exactly one success response keyed to the request id for every other
response value — never two. Part two: the shutdown pipeline yields
exactly the one ack response. Part three: `initialize` (whose response
type is `NoResponse`) writes its single result inside `handle` and the
post-handle send adds nothing. -/
theorem request_single_response (initDeser : Json → Option InitializeParams)
    (extN extR : List Descriptor) (n : Nat) (hn : n < u64Size)
    (hNs : "shutdown" ∉ extN.map Descriptor.method)
    (hRs : "shutdown" ∉ extR.map Descriptor.method)
    (hNi : "initialize" ∉ extN.map Descriptor.method)
    (hRi : "initialize" ∉ extR.map Descriptor.method)
    (fs : List (String × Json)) (p : InitializeParams) (path : String)
    (hdeser : initDeser (Json.obj fs) = some p)
    (hroot : get_root_path p = some path) :
    (∀ (hf : Nat → LsState → LsState × List OutputMsg × ReqOutcome)
       (i : Nat) (s s' : LsState) (w : List OutputMsg) (resp : ResponseVal),
       hf i s = (s', w, .ok resp) →
       request_dispatch hf i s = (s', w ++ respSend i resp, .ok resp) ∧
       countSuccessFor i (respSend i resp)
         = (match resp with | .noResponse => 0 | .payload _ => 1)) ∧
    handle_message initDeser extN extR (.text (some (shutdownMsgJson n))) ⟨false⟩
      = ⟨.state .Continue, ⟨true⟩, [.success n ackJson]⟩ ∧
    handle_message initDeser extN extR (.text (some (initializeMsgJson n fs))) ⟨false⟩
      = ⟨.state .Continue, ⟨false⟩, [.success n initializeResultJson]⟩ := by
  refine ⟨?_, shutdown_ack_pipeline initDeser extN extR n hn hNs hRs,
          initialize_pipeline initDeser extN extR n hn hNi hRi fs p path hdeser hroot⟩
  intro hf i s s' w resp hh
  refine ⟨by unfold request_dispatch; rw [hh], ?_⟩
  cases resp
  · rfl
  · simp [countSuccessFor, respSend, isSuccessFor, List.filter]

/-- C10 witness: id 7, a shutdown and an initialize with a resolvable
root path, each producing exactly one success response keyed to 7. -/
theorem request_single_response_witness :
    (7 < u64Size) ∧
    ((fun _ => some (⟨some "/x", none, none⟩ : InitializeParams)) :
        Json → Option InitializeParams) (Json.obj [])
      = some ⟨some "/x", none, none⟩ ∧
    get_root_path ⟨some "/x", none, none⟩ = some "/x" ∧
    handle_message (fun _ => some ⟨some "/x", none, none⟩) [] []
        (.text (some (shutdownMsgJson 7))) ⟨false⟩
      = ⟨.state .Continue, ⟨true⟩, [.success 7 ackJson]⟩ ∧
    handle_message (fun _ => some ⟨some "/x", none, none⟩) [] []
        (.text (some (initializeMsgJson 7 []))) ⟨false⟩
      = ⟨.state .Continue, ⟨false⟩, [.success 7 initializeResultJson]⟩ :=
  ⟨by decide, rfl, rfl,
   (request_single_response (fun _ => some ⟨some "/x", none, none⟩) [] [] 7
      (by decide) (by decide) (by decide) (by decide) (by decide)
      [] ⟨some "/x", none, none⟩ "/x" rfl rfl).2.1,
   (request_single_response (fun _ => some ⟨some "/x", none, none⟩) [] [] 7
      (by decide) (by decide) (by decide) (by decide) (by decide)
      [] ⟨some "/x", none, none⟩ "/x" rfl rfl).2.2⟩
